import Mathlib

/-!
Verification of the connection-state machine and the connector/acceptor
factory layer of an asynchronous TLS stream adapter (Rust, `src/lib.rs`),
shallowly embedded in Lean 4.

External capabilities are modelled exactly at the interface the code uses:
the webpki DNS-name validator becomes a boolean predicate parameter, the
rustls client configuration is a record holding its root-certificate store,
the rustls server configuration and the transport are opaque type
parameters.  The Established Stream modules (`client.rs`, `common.rs`,
`server.rs`) are not part of the sources; their read/write/shutdown paths
are modelled from the specification where a claim needs them, and each such
definition is marked `Modelled from the spec`.
-/

/-- Connection state of a TLS stream (`TlsState`, `src/lib.rs` lines 22-30).
`EarlyData` exists only with the `early-data` feature; this embedding models
the feature-enabled build, which has all five variants.  The variant the
specification calls `Handshaking` is named `Stream` in the code. -/
inductive TlsState where
  | EarlyData
  | Stream
  | ReadShutdown
  | WriteShutdown
  | FullyShutdown
deriving DecidableEq

/-- `TlsState::shutdown_read` (`src/lib.rs:33-38`): if the write direction is
already shut the state becomes `FullyShutdown`, otherwise `ReadShutdown`.
The Rust method mutates in place; it is embedded as a pure function. -/
def TlsState.shutdown_read : TlsState → TlsState
  | .WriteShutdown | .FullyShutdown => .FullyShutdown
  | _ => .ReadShutdown

/-- `TlsState::shutdown_write` (`src/lib.rs:40-45`): if the read direction is
already shut the state becomes `FullyShutdown`, otherwise `WriteShutdown`. -/
def TlsState.shutdown_write : TlsState → TlsState
  | .ReadShutdown | .FullyShutdown => .FullyShutdown
  | _ => .WriteShutdown

/-- `TlsState::writeable` (`src/lib.rs:47-52`): false exactly on
`WriteShutdown` and `FullyShutdown`. -/
def TlsState.writeable : TlsState → Bool
  | .WriteShutdown | .FullyShutdown => false
  | _ => true

/-- `TlsState::readable` (`src/lib.rs:54-59`): false exactly on
`ReadShutdown` and `FullyShutdown`. -/
def TlsState.readable : TlsState → Bool
  | .ReadShutdown | .FullyShutdown => false
  | _ => true

/-- Whether the read direction is marked shut down (analysis predicate for
stating the monotonicity invariant). -/
def TlsState.read_shut : TlsState → Bool
  | .ReadShutdown | .FullyShutdown => true
  | _ => false

/-- Whether the write direction is marked shut down (analysis predicate for
stating the monotonicity invariant). -/
def TlsState.write_shut : TlsState → Bool
  | .WriteShutdown | .FullyShutdown => true
  | _ => false

/-- The two half-close transitions the state machine offers. -/
inductive ShutdownDir where
  | sread
  | swrite
deriving DecidableEq

/-- Apply one half-close transition to a state. -/
def ShutdownDir.apply : ShutdownDir → TlsState → TlsState
  | .sread, s => s.shutdown_read
  | .swrite, s => s.shutdown_write

/-- Apply a sequence of half-close transitions, left to right. -/
def applyAll : List ShutdownDir → TlsState → TlsState
  | [], s => s
  | d :: ds, s => applyAll ds (d.apply s)

/-- Kind of a `std::io::Error`; only the kind the code constructs is
modelled. -/
inductive IoErrorKind where
  | InvalidInput
deriving DecidableEq

/-- A `std::io::Error`: a kind plus a message. -/
structure IoError where
  kind : IoErrorKind
  msg : String
deriving DecidableEq

/-- A rustls `RootCertStore`, modelled at the interface the code uses: the
list of trust anchors it holds, over an opaque anchor type `α`. -/
structure RootCertStore (α : Type) where
  anchors : List α
deriving DecidableEq

/-- `RootCertStore::add_server_trust_anchors`: appends the given anchors to
the store. -/
def RootCertStore.add_server_trust_anchors {α : Type} (s : RootCertStore α)
    (roots : List α) : RootCertStore α :=
  ⟨s.anchors ++ roots⟩

/-- A rustls `ClientConfig`, modelled at the interface the code uses: its
root-certificate store. -/
structure ClientConfig (α : Type) where
  root_store : RootCertStore α
deriving DecidableEq

/-- `ClientConfig::new`: a fresh configuration with an empty root store. -/
def ClientConfig.new {α : Type} : ClientConfig α :=
  ⟨⟨[]⟩⟩

/-- A rustls `ClientSession`, modelled at the interface the code uses: it is
constructed from a configuration and a validated domain. -/
structure ClientSession (α : Type) where
  config : ClientConfig α
  domain : String
deriving DecidableEq

/-- `ClientSession::new(&config, domain)`. -/
def ClientSession.new {α : Type} (config : ClientConfig α) (domain : String) :
    ClientSession α :=
  ⟨config, domain⟩

/-- `TlsConnector` (`src/lib.rs:64-68`), early-data build: a shared client
configuration plus the `early_data` flag. -/
structure TlsConnector (α : Type) where
  inner : ClientConfig α
  early_data : Bool
deriving DecidableEq

/-- `impl From<Arc<ClientConfig>> for TlsConnector` (`src/lib.rs:76-84`):
wraps the configuration with `early_data` set to `false`. -/
def TlsConnector.from_config {α : Type} (inner : ClientConfig α) :
    TlsConnector α :=
  ⟨inner, false⟩

/-- `impl Default for TlsConnector` (`src/lib.rs:92-100`): a fresh
`ClientConfig` whose root store receives the embedded
`webpki_roots::TLS_SERVER_ROOTS` set, then converted via `From`.  The
embedded root set is external data and is passed as the parameter
`tls_server_roots`. -/
def TlsConnector.default {α : Type} (tls_server_roots : List α) :
    TlsConnector α :=
  TlsConnector.from_config
    { root_store :=
        (ClientConfig.new : ClientConfig α).root_store.add_server_trust_anchors
          tls_server_roots }

/-- `TlsConnector::new` (`src/lib.rs:103-105`): `Default::default()`. -/
def TlsConnector.new {α : Type} (tls_server_roots : List α) : TlsConnector α :=
  TlsConnector.default tls_server_roots

/-- `TlsConnector::early_data` (`src/lib.rs:112-115`), the builder method
setting the 0-RTT flag.  In Lean the structure projection already owns the
name `early_data`, so the method is embedded as `with_early_data`. -/
def TlsConnector.with_early_data {α : Type} (c : TlsConnector α) (flag : Bool) :
    TlsConnector α :=
  { c with early_data := flag }

namespace client

/-- `client::TlsStream`, early-data build, at the interface `lib.rs` uses:
the session, the transport handle, the connection state, and the early-data
buffer `(cursor, bytes)`. -/
structure TlsStream (α ι : Type) where
  session : ClientSession α
  io : ι
  state : TlsState
  early_data : Nat × List Nat
deriving DecidableEq

/-- `client::MidHandshake`, at the interface `lib.rs` uses: the two
constructors `connect_with` produces. -/
inductive MidHandshake (α ι : Type) where
  | Handshaking (stream : TlsStream α ι)
  | EarlyData (stream : TlsStream α ι)
deriving DecidableEq

end client

/-- `Connect<IO>` (`src/lib.rs:199`): a newtype around
`client::MidHandshake`. -/
structure Connect (α ι : Type) where
  val : client.MidHandshake α ι
deriving DecidableEq

/-- The session stored inside a `Connect` future. -/
def Connect.session {α ι : Type} : Connect α ι → ClientSession α
  | ⟨client.MidHandshake.Handshaking s⟩ => s.session
  | ⟨client.MidHandshake.EarlyData s⟩ => s.session

/-- `TlsConnector::connect_with` (`src/lib.rs:124-169`), early-data build.
The external webpki check `DNSNameRef::try_from_ascii_str` is passed as the
predicate `valid`; the customization callback, which receives `&mut
ClientSession`, is embedded as the state transformer `f`. -/
def TlsConnector.connect_with {α ι : Type} (valid : String → Bool)
    (c : TlsConnector α) (domain : String) (stream : ι)
    (f : ClientSession α → ClientSession α) : Except IoError (Connect α ι) :=
  if valid domain then
    let session := f (ClientSession.new c.inner domain)
    if c.early_data then
      Except.ok ⟨client.MidHandshake.EarlyData
        { session := session, io := stream,
          state := TlsState.EarlyData, early_data := (0, []) }⟩
    else
      Except.ok ⟨client.MidHandshake.Handshaking
        { session := session, io := stream,
          state := TlsState.Stream, early_data := (0, []) }⟩
  else
    Except.error ⟨IoErrorKind.InvalidInput, "invalid domain"⟩

/-- `TlsConnector::connect` (`src/lib.rs:117-122`): `connect_with` with the
do-nothing callback `|_| ()`. -/
def TlsConnector.connect {α ι : Type} (valid : String → Bool)
    (c : TlsConnector α) (domain : String) (stream : ι) :
    Except IoError (Connect α ι) :=
  TlsConnector.connect_with valid c domain stream (fun s => s)

/-- A rustls `ServerSession`, modelled at the interface the code uses: it is
constructed from a server configuration (opaque type `σ`). -/
structure ServerSession (σ : Type) where
  config : σ
deriving DecidableEq

/-- `ServerSession::new(&config)`. -/
def ServerSession.new {σ : Type} (config : σ) : ServerSession σ :=
  ⟨config⟩

/-- `TlsAcceptor` (`src/lib.rs:72-74`): a shared server configuration. -/
structure TlsAcceptor (σ : Type) where
  inner : σ
deriving DecidableEq

/-- `impl From<Arc<ServerConfig>> for TlsAcceptor` (`src/lib.rs:86-90`). -/
def TlsAcceptor.from_config {σ : Type} (inner : σ) : TlsAcceptor σ :=
  ⟨inner⟩

namespace server

/-- `server::TlsStream`, at the interface `lib.rs` uses (no early-data
buffer on the server side). -/
structure TlsStream (σ ι : Type) where
  session : ServerSession σ
  io : ι
  state : TlsState
deriving DecidableEq

/-- `server::MidHandshake`, at the interface `lib.rs` uses: `accept_with`
only ever produces the `Handshaking` constructor. -/
inductive MidHandshake (σ ι : Type) where
  | Handshaking (stream : TlsStream σ ι)
deriving DecidableEq

end server

/-- `Accept<IO>` (`src/lib.rs:203`): a newtype around
`server::MidHandshake`. -/
structure Accept (σ ι : Type) where
  val : server.MidHandshake σ ι
deriving DecidableEq

/-- `TlsAcceptor::accept_with` (`src/lib.rs:181-194`): constructs a fresh
server session, runs the callback on it, and always returns an `Accept`
future — the return type is `Accept<IO>`, not a `Result`. -/
def TlsAcceptor.accept_with {σ ι : Type} (a : TlsAcceptor σ) (stream : ι)
    (f : ServerSession σ → ServerSession σ) : Accept σ ι :=
  ⟨server.MidHandshake.Handshaking
    { session := f (ServerSession.new a.inner), io := stream,
      state := TlsState.Stream }⟩

/-- `TlsAcceptor::accept` (`src/lib.rs:173-178`): `accept_with` with the
do-nothing callback `|_| ()`. -/
def TlsAcceptor.accept {σ ι : Type} (a : TlsAcceptor σ) (stream : ι) :
    Accept σ ι :=
  a.accept_with stream (fun s => s)

/-- An interaction with the underlying Transport. -/
inductive TransportOp where
  | read
  | write
deriving DecidableEq

/-- Modelled from the spec: the Established Stream read path of the missing
stream modules (`client.rs`/`common.rs` are not under `src/`) — "Calling
read after `ReadShutdown`/`FullyShutdown` yields immediate end-of-stream
with no further Transport interaction".  When the state is readable the
call delegates to the session/transport adapter, whose outcome and
transport interactions are the parameter `inner`; otherwise it returns
count 0 with no transport operations.  The outcome pairs an
`Except String Nat` (byte count or error message) with the list of
transport operations performed. -/
def poll_read (s : TlsState) (inner : Except String Nat × List TransportOp) :
    Except String Nat × List TransportOp :=
  if s.readable then inner else (Except.ok 0, [])

/-- Modelled from the spec: the Established Stream write path of the missing
stream modules — "Calling write after `WriteShutdown`/`FullyShutdown` fails
with a \x22stream closed for writing\x22 error" and "does not touch the
Transport".  When the state is writeable the call delegates to the
session/transport adapter (`inner`); otherwise it fails immediately. -/
def poll_write (s : TlsState) (inner : Except String Nat × List TransportOp) :
    Except String Nat × List TransportOp :=
  if s.writeable then inner else (Except.error "stream closed for writing", [])

/-- An interaction with the Session Engine relevant to shutdown. -/
inductive SessionEffect where
  | closeNotify
deriving DecidableEq

/-- Modelled from the spec: the Established Stream shutdown path of the
missing stream modules — "shutdown (initiates a TLS-level close-notify,
marks local write direction shut)" together with "calling shutdown twice on
the same stream is safe and does not re-send a close-notify or error".  A
close-notify is queued only when the write direction is still open; the
result pairs the new state with the session effects performed. -/
def poll_shutdown (s : TlsState) : TlsState × List SessionEffect :=
  if s.writeable then (s.shutdown_write, [SessionEffect.closeNotify])
  else (s, [])

/-- One half-close transition preserves a shut read direction. -/
theorem read_shut_step (d : ShutdownDir) (s : TlsState) :
    s.read_shut = true → (d.apply s).read_shut = true := by
  cases d <;> cases s <;> decide

/-- One half-close transition preserves a shut write direction. -/
theorem write_shut_step (d : ShutdownDir) (s : TlsState) :
    s.write_shut = true → (d.apply s).write_shut = true := by
  cases d <;> cases s <;> decide

/-- Any sequence of half-close transitions preserves a shut read
direction. -/
theorem read_shut_mono (ds : List ShutdownDir) (s : TlsState) :
    s.read_shut = true → (applyAll ds s).read_shut = true := by
  induction ds generalizing s with
  | nil => intro h; exact h
  | cons d ds ih => intro h; exact ih (d.apply s) (read_shut_step d s h)

/-- Any sequence of half-close transitions preserves a shut write
direction. -/
theorem write_shut_mono (ds : List ShutdownDir) (s : TlsState) :
    s.write_shut = true → (applyAll ds s).write_shut = true := by
  induction ds generalizing s with
  | nil => intro h; exact h
  | cons d ds ih => intro h; exact ih (d.apply s) (write_shut_step d s h)

/-- C1: the transitions `shutdown_read` and `shutdown_write` are monotonic
toward `FullyShutdown` — a direction once marked shut down stays shut under
any later sequence of transitions; a write-shutdown applied to a state
whose read direction is shut (`ReadShutdown` or `FullyShutdown`) yields
`FullyShutdown`, and symmetrically a read-shutdown applied to a state whose
write direction is shut yields `FullyShutdown`. -/
theorem shutdown_monotonic (s : TlsState) (ds : List ShutdownDir) :
    (s.read_shut = true → (applyAll ds s).read_shut = true) ∧
    (s.write_shut = true → (applyAll ds s).write_shut = true) ∧
    (s.read_shut = true → s.shutdown_write = TlsState.FullyShutdown) ∧
    (s.write_shut = true → s.shutdown_read = TlsState.FullyShutdown) := by
  refine ⟨read_shut_mono ds s, write_shut_mono ds s, ?_, ?_⟩ <;>
    cases s <;> decide

/-- Witness for C1 at `ReadShutdown`/`WriteShutdown` with a concrete
transition sequence. -/
theorem shutdown_monotonic_witness :
    (applyAll [ShutdownDir.swrite, ShutdownDir.sread]
        TlsState.ReadShutdown).read_shut = true ∧
    (applyAll [ShutdownDir.swrite, ShutdownDir.sread]
        TlsState.WriteShutdown).write_shut = true ∧
    TlsState.ReadShutdown.shutdown_write = TlsState.FullyShutdown ∧
    TlsState.WriteShutdown.shutdown_read = TlsState.FullyShutdown :=
  ⟨(shutdown_monotonic TlsState.ReadShutdown
      [ShutdownDir.swrite, ShutdownDir.sread]).1 (by decide),
   (shutdown_monotonic TlsState.WriteShutdown
      [ShutdownDir.swrite, ShutdownDir.sread]).2.1 (by decide),
   (shutdown_monotonic TlsState.ReadShutdown []).2.2.1 (by decide),
   (shutdown_monotonic TlsState.WriteShutdown []).2.2.2 (by decide)⟩

/-- C2: `readable` is false exactly on `ReadShutdown` and `FullyShutdown`,
and on a non-readable state the read path returns end-of-stream (count 0)
with no transport interaction, whatever the adapter would have done. -/
theorem read_after_shutdown (s : TlsState)
    (inner : Except String Nat × List TransportOp) :
    (s.readable = false ↔
      (s = TlsState.ReadShutdown ∨ s = TlsState.FullyShutdown)) ∧
    (s.readable = false → poll_read s inner = (Except.ok 0, [])) := by
  constructor
  · cases s <;> decide
  · intro h; simp [poll_read, h]

/-- Witness for C2 at `ReadShutdown` with a concrete adapter outcome. -/
theorem read_after_shutdown_witness :
    (TlsState.ReadShutdown.readable = false ↔
      (TlsState.ReadShutdown = TlsState.ReadShutdown ∨
        TlsState.ReadShutdown = TlsState.FullyShutdown)) ∧
    poll_read TlsState.ReadShutdown (Except.ok 7, [TransportOp.read])
      = (Except.ok 0, []) :=
  ⟨(read_after_shutdown TlsState.ReadShutdown
      (Except.ok 7, [TransportOp.read])).1,
   (read_after_shutdown TlsState.ReadShutdown
      (Except.ok 7, [TransportOp.read])).2 (by decide)⟩

/-- C3: `writeable` is false exactly on `WriteShutdown` and `FullyShutdown`,
and on a non-writeable state the write path fails deterministically with
the "stream closed for writing" error and no transport interaction,
whatever the adapter would have done. -/
theorem write_after_shutdown (s : TlsState)
    (inner : Except String Nat × List TransportOp) :
    (s.writeable = false ↔
      (s = TlsState.WriteShutdown ∨ s = TlsState.FullyShutdown)) ∧
    (s.writeable = false →
      poll_write s inner = (Except.error "stream closed for writing", [])) := by
  constructor
  · cases s <;> decide
  · intro h; simp [poll_write, h]

/-- Witness for C3 at `WriteShutdown` with a concrete adapter outcome. -/
theorem write_after_shutdown_witness :
    (TlsState.WriteShutdown.writeable = false ↔
      (TlsState.WriteShutdown = TlsState.WriteShutdown ∨
        TlsState.WriteShutdown = TlsState.FullyShutdown)) ∧
    poll_write TlsState.WriteShutdown (Except.ok 7, [TransportOp.write])
      = (Except.error "stream closed for writing", []) :=
  ⟨(write_after_shutdown TlsState.WriteShutdown
      (Except.ok 7, [TransportOp.write])).1,
   (write_after_shutdown TlsState.WriteShutdown
      (Except.ok 7, [TransportOp.write])).2 (by decide)⟩

/-- C4: when the domain fails DNS-name validation, `connect_with` returns
the `InvalidInput` "invalid domain" error immediately; the result does not
depend on the customization callback (so the callback is never invoked and
no session is constructed), and being a pure constructor error it involves
no transport I/O.  When the domain is valid, the result is `Ok` with a
handshake future. -/
theorem connect_invalid_domain {α ι : Type} (valid : String → Bool)
    (c : TlsConnector α) (domain : String) (stream : ι)
    (f g : ClientSession α → ClientSession α) :
    (valid domain = false →
      TlsConnector.connect_with valid c domain stream f
        = Except.error ⟨IoErrorKind.InvalidInput, "invalid domain"⟩ ∧
      TlsConnector.connect_with valid c domain stream f
        = TlsConnector.connect_with valid c domain stream g) ∧
    (valid domain = true →
      ∃ r, TlsConnector.connect_with valid c domain stream f = Except.ok r) := by
  constructor
  · intro h
    constructor <;> simp [TlsConnector.connect_with, h]
  · intro h
    rcases he : c.early_data <;>
      simp [TlsConnector.connect_with, h, he]

/-- Witness for C4: an invalid and a valid domain under a concrete
validator, with two distinct callbacks. -/
theorem connect_invalid_domain_witness :
    (TlsConnector.connect_with (fun d => d = "good")
        (TlsConnector.from_config (ClientConfig.new : ClientConfig Nat))
        "b a d" (0 : Nat) (fun s => s)
      = Except.error ⟨IoErrorKind.InvalidInput, "invalid domain"⟩ ∧
     TlsConnector.connect_with (fun d => d = "good")
        (TlsConnector.from_config (ClientConfig.new : ClientConfig Nat))
        "b a d" (0 : Nat) (fun s => s)
      = TlsConnector.connect_with (fun d => d = "good")
        (TlsConnector.from_config (ClientConfig.new : ClientConfig Nat))
        "b a d" (0 : Nat) (fun _ => ClientSession.new ClientConfig.new "x")) ∧
    (∃ r, TlsConnector.connect_with (fun d => d = "good")
        (TlsConnector.from_config (ClientConfig.new : ClientConfig Nat))
        "good" (0 : Nat) (fun s => s) = Except.ok r) :=
  ⟨(connect_invalid_domain (fun d => d = "good")
      (TlsConnector.from_config (ClientConfig.new : ClientConfig Nat))
      "b a d" (0 : Nat) (fun s => s)
      (fun _ => ClientSession.new ClientConfig.new "x")).1 (by decide),
   (connect_invalid_domain (fun d => d = "good")
      (TlsConnector.from_config (ClientConfig.new : ClientConfig Nat))
      "good" (0 : Nat) (fun s => s)
      (fun _ => ClientSession.new ClientConfig.new "x")).2 (by decide)⟩

/-- C5: shutdown is idempotent — `shutdown_write` and `shutdown_read` are
idempotent on every state, and a second `poll_shutdown` on the state left
by a first one queues no second close-notify and leaves the state
unchanged. -/
theorem shutdown_idempotent (s : TlsState) :
    s.shutdown_write.shutdown_write = s.shutdown_write ∧
    s.shutdown_read.shutdown_read = s.shutdown_read ∧
    (poll_shutdown (poll_shutdown s).1).2 = [] ∧
    (poll_shutdown (poll_shutdown s).1).1 = (poll_shutdown s).1 := by
  cases s <;> decide

/-- C6: with the early-data feature enabled, `connect_with` on a valid
domain starts in the `EarlyData` mid-handshake state with connection state
`EarlyData` and an early-data buffer whose cursor is 0 and whose byte list
is empty exactly when the connector's `early_data` flag is true, and starts
in the ordinary `Handshaking` state with connection state `Stream`
otherwise; the flag is false after `From<Arc<ClientConfig>>` and equals
whatever the `early_data` builder method set. -/
theorem connect_early_data_start {α ι : Type} (valid : String → Bool)
    (c : TlsConnector α) (domain : String) (stream : ι)
    (f : ClientSession α → ClientSession α) (cfg : ClientConfig α) (b : Bool)
    (hv : valid domain = true) :
    (c.early_data = true →
      TlsConnector.connect_with valid c domain stream f
        = Except.ok ⟨client.MidHandshake.EarlyData
            { session := f (ClientSession.new c.inner domain), io := stream,
              state := TlsState.EarlyData, early_data := (0, []) }⟩) ∧
    (c.early_data = false →
      TlsConnector.connect_with valid c domain stream f
        = Except.ok ⟨client.MidHandshake.Handshaking
            { session := f (ClientSession.new c.inner domain), io := stream,
              state := TlsState.Stream, early_data := (0, []) }⟩) ∧
    (TlsConnector.from_config cfg).early_data = false ∧
    (c.with_early_data b).early_data = b := by
  refine ⟨?_, ?_, rfl, rfl⟩ <;>
    intro he <;> simp [TlsConnector.connect_with, hv, he]

/-- Witness for C6: a connector with the flag set and one without, on a
concrete valid domain. -/
theorem connect_early_data_start_witness :
    TlsConnector.connect_with (fun _ => true)
        ((TlsConnector.from_config (ClientConfig.new : ClientConfig Nat)).with_early_data
          true) "d" (0 : Nat) (fun s => s)
      = Except.ok ⟨client.MidHandshake.EarlyData
          { session := ClientSession.new ClientConfig.new "d", io := 0,
            state := TlsState.EarlyData, early_data := (0, []) }⟩ ∧
    TlsConnector.connect_with (fun _ => true)
        (TlsConnector.from_config (ClientConfig.new : ClientConfig Nat))
        "d" (0 : Nat) (fun s => s)
      = Except.ok ⟨client.MidHandshake.Handshaking
          { session := ClientSession.new ClientConfig.new "d", io := 0,
            state := TlsState.Stream, early_data := (0, []) }⟩ :=
  ⟨(connect_early_data_start (fun _ => true)
      ((TlsConnector.from_config (ClientConfig.new : ClientConfig Nat)).with_early_data
        true) "d" (0 : Nat) (fun s => s) ClientConfig.new true rfl).1 rfl,
   (connect_early_data_start (fun _ => true)
      (TlsConnector.from_config (ClientConfig.new : ClientConfig Nat))
      "d" (0 : Nat) (fun s => s) ClientConfig.new true rfl).2.1 rfl⟩

/-- C7: a connector built with no explicit anchors (`TlsConnector::new`,
which is `Default::default()`) holds a client configuration whose root
store is exactly the embedded `TLS_SERVER_ROOTS` set, so every anchor of
that set is in the store. -/
theorem default_connector_roots {α : Type} (tls_server_roots : List α)
    (a : α) :
    (TlsConnector.new tls_server_roots).inner.root_store.anchors
      = tls_server_roots ∧
    (a ∈ tls_server_roots →
      a ∈ (TlsConnector.new tls_server_roots).inner.root_store.anchors) := by
  constructor
  · rfl
  · intro h
    simpa [TlsConnector.new, TlsConnector.default, TlsConnector.from_config,
      ClientConfig.new, RootCertStore.add_server_trust_anchors] using h

/-- Witness for C7 on a concrete anchor list. -/
theorem default_connector_roots_witness :
    (TlsConnector.new [10, 20, 30]).inner.root_store.anchors
      = [10, 20, 30] ∧
    20 ∈ (TlsConnector.new [10, 20, 30]).inner.root_store.anchors :=
  ⟨(default_connector_roots [10, 20, 30] 20).1,
   (default_connector_roots [10, 20, 30] 20).2 (by decide)⟩

/-- C8: the customization callback is applied exactly once to the freshly
constructed session, before the handshake future is returned — the session
stored in the future is `f` applied to `ClientSession::new` (resp.
`ServerSession::new`) — and `connect` (resp. `accept`) equals
`connect_with` (resp. `accept_with`) with the do-nothing callback. -/
theorem callback_applied_once {α σ ι : Type} (valid : String → Bool)
    (c : TlsConnector α) (domain : String) (stream : ι)
    (f : ClientSession α → ClientSession α) (a : TlsAcceptor σ) (stream2 : ι)
    (g : ServerSession σ → ServerSession σ) :
    TlsConnector.connect valid c domain stream
      = TlsConnector.connect_with valid c domain stream (fun s => s) ∧
    TlsAcceptor.accept a stream2
      = TlsAcceptor.accept_with a stream2 (fun s => s) ∧
    (valid domain = true →
      ∃ r, TlsConnector.connect_with valid c domain stream f = Except.ok r ∧
        Connect.session r = f (ClientSession.new c.inner domain)) ∧
    (TlsAcceptor.accept_with a stream2 g).val
      = server.MidHandshake.Handshaking
          { session := g (ServerSession.new a.inner), io := stream2,
            state := TlsState.Stream } := by
  refine ⟨rfl, rfl, ?_, rfl⟩
  intro hv
  rcases he : c.early_data <;>
    simp [TlsConnector.connect_with, hv, he, Connect.session]

/-- Witness for C8 with a concrete validator, connector, acceptor and
callbacks. -/
theorem callback_applied_once_witness :
    TlsConnector.connect (fun _ => true)
        (TlsConnector.from_config (ClientConfig.new : ClientConfig Nat))
        "d" (0 : Nat)
      = TlsConnector.connect_with (fun _ => true)
          (TlsConnector.from_config (ClientConfig.new : ClientConfig Nat))
          "d" (0 : Nat) (fun s => s) ∧
    TlsAcceptor.accept (TlsAcceptor.from_config (5 : Nat)) (0 : Nat)
      = TlsAcceptor.accept_with (TlsAcceptor.from_config (5 : Nat)) (0 : Nat)
          (fun s => s) ∧
    (∃ r, TlsConnector.connect_with (fun _ => true)
          (TlsConnector.from_config (ClientConfig.new : ClientConfig Nat))
          "d" (0 : Nat) (fun _ => ClientSession.new ClientConfig.new "other")
        = Except.ok r ∧
      Connect.session r = ClientSession.new ClientConfig.new "other") ∧
    (TlsAcceptor.accept_with (TlsAcceptor.from_config (5 : Nat)) (0 : Nat)
        (fun s => s)).val
      = server.MidHandshake.Handshaking
          { session := ServerSession.new 5, io := 0,
            state := TlsState.Stream } := by
  have h := callback_applied_once (fun _ => true)
    (TlsConnector.from_config (ClientConfig.new : ClientConfig Nat))
    "d" (0 : Nat) (fun _ => ClientSession.new ClientConfig.new "other")
    (TlsAcceptor.from_config (5 : Nat)) (0 : Nat) (fun s => s)
  exact ⟨h.1, h.2.1, h.2.2.1 rfl, h.2.2.2⟩

/-- C9: the connection state is an enumeration of exactly five mutually
exclusive variants — `EarlyData` (early-data feature build), the ordinary
established/handshaking variant (named `Stream` in the code, `Handshaking`
in the specification), `ReadShutdown`, `WriteShutdown` and `FullyShutdown`:
every state is equal to one of the five, the five are pairwise distinct,
and every state occurs exactly once in the list of variants. -/
theorem tls_state_enumeration :
    (∀ s : TlsState,
      s = TlsState.EarlyData ∨ s = TlsState.Stream ∨
      s = TlsState.ReadShutdown ∨ s = TlsState.WriteShutdown ∨
      s = TlsState.FullyShutdown) ∧
    ([TlsState.EarlyData, TlsState.Stream, TlsState.ReadShutdown,
        TlsState.WriteShutdown, TlsState.FullyShutdown] : List TlsState).Nodup ∧
    (∀ s : TlsState,
      List.count s
        [TlsState.EarlyData, TlsState.Stream, TlsState.ReadShutdown,
          TlsState.WriteShutdown, TlsState.FullyShutdown] = 1) := by
  refine ⟨fun s => ?_, by decide, fun s => ?_⟩ <;> cases s <;> decide

/-- C10: `accept_with` and `accept` never fail synchronously — for every
acceptor, transport and callback they return an `Accept` future outright
(the type is `Accept`, not a `Result`), built without any pre-handshake
validation. -/
theorem accept_never_fails {σ ι : Type} (a : TlsAcceptor σ) (stream : ι)
    (f : ServerSession σ → ServerSession σ) :
    TlsAcceptor.accept_with a stream f
      = ⟨server.MidHandshake.Handshaking
          { session := f (ServerSession.new a.inner), io := stream,
            state := TlsState.Stream }⟩ ∧
    TlsAcceptor.accept a stream
      = ⟨server.MidHandshake.Handshaking
          { session := ServerSession.new a.inner, io := stream,
            state := TlsState.Stream }⟩ :=
  ⟨rfl, rfl⟩
